import Mathlib

/-!
Shallow embedding of the VRL logistics pickup/invoice application
(`vrlapp/invoice_utils.py`, `vrlapp/models.py`, `vrlapp/views.py`).

Conventions of the embedding:
* Python `float` / `Decimal` arithmetic is modelled by exact rationals (ℚ).
  All quantities that appear in the claims stay far away from the region
  where binary-float rounding could flip a comparison.
* Database rows are modelled as Lean structures; a table is a `List` of rows.
* `now()` timestamps are passed in as explicit `Nat` parameters.
-/

namespace VRL

/-! ### `invoice_utils.calculate_weight_charge`

The Python function lower-cases and strips the weight string, extracts the
first token matching the regex `(\d+\.?\d*)`, converts it with `float`,
multiplies by 1000 when the string contains `"kg"`, computes
`units = (weight_value + 499) / 500` (Python float division) and returns
`min(units * 20, 200.00)`; when no token matches it returns `50.00`. -/

/-- Value of a digit string, as `int(...)` of the digits (most significant first). -/
def digitsToNat (l : List Char) : Nat :=
  l.foldl (fun a c => 10 * a + (c.toNat - 48)) 0

/-- The match of the regex `\d+\.?\d*` anchored at a position whose first
character is a digit: a maximal digit run, an optional dot, then a maximal
digit run. -/
def matchTok (l : List Char) : List Char :=
  let ds := l.takeWhile Char.isDigit
  match l.dropWhile Char.isDigit with
  | '.' :: r2 => ds ++ '.' :: r2.takeWhile Char.isDigit
  | _ => ds

/-- `re.search(r'(\d+\.?\d*)', s)`: leftmost match of the numeric-token regex,
`none` when the string has no digit. -/
def extractNum : List Char → Option (List Char)
  | [] => none
  | c :: rest => if c.isDigit then some (matchTok (c :: rest)) else extractNum rest

/-- Python `float()` applied to a token of shape `digits ['.' digits*]`,
modelled exactly in ℚ. -/
def parseTok (l : List Char) : ℚ :=
  let ip := l.takeWhile Char.isDigit
  let fp := match l.dropWhile Char.isDigit with
    | '.' :: r => r
    | _ => []
  (digitsToNat ip : ℚ) + (digitsToNat fp : ℚ) / (10 : ℚ) ^ fp.length

/-- `'kg' in s` on a character list. -/
def containsKg : List Char → Bool
  | 'k' :: 'g' :: _ => true
  | _ :: rest => containsKg rest
  | [] => false

/-- Python `str.strip()`: drop whitespace at both ends. -/
def stripEnds (l : List Char) : List Char :=
  ((l.dropWhile Char.isWhitespace).reverse.dropWhile Char.isWhitespace).reverse

/-- `weight_str.lower().strip()` as performed at the top of the function. -/
def normalizeWeight (s : String) : List Char :=
  stripEnds (s.data.map Char.toLower)

/-- `calculate_weight_charge` (`invoice_utils.py` lines 222-256).
The division `(weight_value + 499) / 500` is Python float division; it is
modelled by exact division in ℚ. -/
def calculate_weight_charge (s : String) : ℚ :=
  let w := normalizeWeight s
  match extractNum w with
  | none => 50
  | some tok =>
    let v : ℚ := parseTok tok
    let v := if containsKg w then v * 1000 else v
    let units : ℚ := (v + 499) / 500
    let charge := units * 20
    min charge 200

/-- What the spec asks of the calculator on a weight of `grams` grams:
integer ceiling division by 500, `min(ceil(grams/500) * 20, 200)`.
Used only to compare against the code. -/
def spec_weight_charge (grams : ℚ) : ℚ :=
  min ((⌈grams / 500⌉ : ℚ) * 20) 200

/-! ### `models.Invoice` -/

/-- A row of the `Invoice` table (`models.py` lines 148-190).  Decimal fields
are modelled in ℚ; `generated_at` is the `auto_now_add` creation timestamp,
set once at row insertion and never touched by `save`. -/
structure Invoice where
  pickup_request_id : Nat
  invoice_number : String
  base_charge : ℚ
  weight_charge : ℚ
  tax_percentage : ℚ
  tax_amount : ℚ
  total_amount : ℚ
  generated_at : Nat
deriving Repr, DecidableEq

/-- `Invoice.calculate_totals` (`models.py` lines 172-177):
`tax_amount = (base+weight) * tax_percentage / 100`,
`total_amount = subtotal + tax_amount`. -/
def calculate_totals (inv : Invoice) : Invoice :=
  let subtotal := inv.base_charge + inv.weight_charge
  let tax := subtotal * inv.tax_percentage / 100
  { inv with tax_amount := tax, total_amount := subtotal + tax }

/-- Python `f'{n:03d}'`: decimal digits of `n`, zero-padded to at least 3. -/
def pad3 (n : Nat) : String :=
  if n < 10 then "00" ++ toString n
  else if n < 100 then "0" ++ toString n
  else toString n

/-- `Invoice.save` (`models.py` lines 179-190): when `invoice_number` is empty
(falsy), count the invoices of the day (`invoice_number__startswith='INV-<today>'`
over the whole table `db`) and assign `INV-<today>-<count+1:03d>`; then always
recompute the totals.  The actual row write `super().save()` is performed by
the caller's table update. -/
def invoiceSave (db : List Invoice) (today : String) (inv : Invoice) : Invoice :=
  let inv :=
    if inv.invoice_number = "" then
      let count :=
        (db.filter (fun i => i.invoice_number.startsWith ("INV-" ++ today))).length
      { inv with invoice_number := "INV-" ++ today ++ "-" ++ pad3 (count + 1) }
    else inv
  calculate_totals inv

/-- Write-back of a saved row into the table: the `OneToOneField` row for the
same pickup request is replaced. -/
def updateById (db : List Invoice) (inv : Invoice) : List Invoice :=
  db.map (fun i => if i.pickup_request_id == inv.pickup_request_id then inv else i)

/-- The invoice-record part of `generate_invoice_pdf` (`invoice_utils.py`
lines 29-38): `Invoice.objects.get_or_create(pickup_request=...)` with
defaults `base_charge=100.00`, `weight_charge=calculate_weight_charge(...)`
(the remaining fields take the model defaults `tax_percentage=18`,
`tax_amount=0`, `total_amount=0`, empty `invoice_number`, `generated_at=now`),
followed by `invoice.calculate_totals(); invoice.save()`.  The PDF rendering
that follows does not touch the table. -/
def generate_invoice (db : List Invoice) (today : String) (now : Nat)
    (rid : Nat) (weight : String) : List Invoice :=
  match db.find? (fun i => i.pickup_request_id == rid) with
  | some inv =>
    let inv2 := invoiceSave db today (calculate_totals inv)
    updateById db inv2
  | none =>
    let inv0 : Invoice :=
      { pickup_request_id := rid
        invoice_number := ""
        base_charge := 100
        weight_charge := calculate_weight_charge weight
        tax_percentage := 18
        tax_amount := 0
        total_amount := 0
        generated_at := now }
    let inv1 := invoiceSave db today inv0
    let db1 := db ++ [inv1]
    let inv2 := invoiceSave db1 today (calculate_totals inv1)
    updateById db1 inv2

/-! ### `views.accept_request` / `reject_request` / `complete_request`

The three staff-only status transitions (`views.py` lines 285-418).  The
parts relevant to the claims: each handler reads the old status, overwrites
`status` and the relevant timestamp on the `PickupRequest`, saves it, appends
one `RequestStatusHistory` row, then (for accept/reject) tries to send an
email, and reports a Django message to the acting staff member. -/

/-- The `PickupRequest` fields the transition handlers touch. -/
structure Pickup where
  status : String
  admin_notes : Option String
  reviewed_at : Option Nat
  completed_at : Option Nat
deriving Repr, DecidableEq

/-- A `RequestStatusHistory` row (`models.py` lines 114-138). -/
structure HistoryEntry where
  old_status : String
  new_status : String
  notes : String
deriving Repr, DecidableEq

/-- The slice of database state a transition handler works on: the request
row plus its history rows. -/
structure ReqState where
  pickup : Pickup
  history : List HistoryEntry
deriving Repr, DecidableEq

/-- Kind of Django message flashed to the acting staff member. -/
inductive MsgKind
  | success
  | warning
  | error
deriving Repr, DecidableEq

/-- Environment of `send_acceptance_email`: whether the invoice PDF renders,
whether the primary send (with attachment) succeeds, and whether the
fallback plain send succeeds. -/
structure EmailEnv where
  renderOk : Bool
  primaryOk : Bool
  fallbackOk : Bool
deriving Repr, DecidableEq

/-- `send_acceptance_email` (`views.py` lines 681-805): render the invoice and
send with attachment inside a `try`; any exception there falls into the
`except` block, which attempts a plain fallback email; the function returns
whether some email went out and never lets the exception escape. -/
def sendAcceptanceEmail (env : EmailEnv) : Bool :=
  if env.renderOk && env.primaryOk then true else env.fallbackOk

/-- `accept_request` (`views.py` lines 285-343).  `emailCall` is the observed
behaviour of the `send_acceptance_email(pickup)` call: `some b` when it
returns `b`, `none` when it raises (the handler catches the exception and
leaves `email_sent = False`).  The status write, save and history row all
happen before the email attempt, and the handler flashes `success` when the
email went out, `warning` otherwise. -/
def accept_request (st : ReqState) (admin_notes : String) (t : Nat)
    (emailCall : Option Bool) : ReqState × MsgKind :=
  let old := st.pickup.status
  let p :=
    { st.pickup with
      status := "accepted"
      reviewed_at := some t
      admin_notes := if admin_notes = "" then st.pickup.admin_notes else some admin_notes }
  let st1 : ReqState :=
    { pickup := p
      history := st.history ++ [⟨old, "accepted", admin_notes⟩] }
  let email_sent :=
    match emailCall with
    | some b => b
    | none => false
  (st1, if email_sent then MsgKind.success else MsgKind.warning)

/-- `reject_request` (`views.py` lines 346-386): sets status `rejected` and
`reviewed_at`, stores the supplied reason in `admin_notes`, appends one
history row carrying the reason; the rejection-email attempt is wrapped in
its own `try/except` and does not affect the flashed `success` message. -/
def reject_request (st : ReqState) (rejection_reason : String) (t : Nat) :
    ReqState × MsgKind :=
  let old := st.pickup.status
  let p :=
    { st.pickup with
      status := "rejected"
      reviewed_at := some t
      admin_notes := some rejection_reason }
  ({ pickup := p
     history := st.history ++ [⟨old, "rejected", rejection_reason⟩] },
   MsgKind.success)

/-- `complete_request` (`views.py` lines 389-418): sets status `completed` and
`completed_at`, appends one history row with the fixed note. -/
def complete_request (st : ReqState) (t : Nat) : ReqState × MsgKind :=
  let old := st.pickup.status
  let p := { st.pickup with status := "completed", completed_at := some t }
  ({ pickup := p
     history := st.history ++ [⟨old, "completed", "Marked as completed"⟩] },
   MsgKind.success)

/-- A pickup request already in the terminal state `completed`, used to
exhibit the missing terminal-state guard. -/
def completedState : ReqState :=
  { pickup :=
      { status := "completed"
        admin_notes := none
        reviewed_at := none
        completed_at := some 4 }
    history := [] }

/-- Fresh invoice row as produced by `get_or_create` defaults, used in
witnesses. -/
def invNew : Invoice :=
  { pickup_request_id := 7
    invoice_number := ""
    base_charge := 100
    weight_charge := 50
    tax_percentage := 18
    tax_amount := 0
    total_amount := 0
    generated_at := 0 }

/-- An invoice row that already carries a number, used in witnesses. -/
def invOld : Invoice :=
  { pickup_request_id := 9
    invoice_number := "INV-20260101-001"
    base_charge := 100
    weight_charge := 50
    tax_percentage := 18
    tax_amount := 27
    total_amount := 177
    generated_at := 11 }

/-! ### Helper lemmas -/

theorem calculate_weight_charge_of_none (s : String)
    (h : extractNum (normalizeWeight s) = none) :
    calculate_weight_charge s = 50 := by
  simp only [calculate_weight_charge, h]

theorem calculate_weight_charge_of_some (s : String) (tok : List Char)
    (h : extractNum (normalizeWeight s) = some tok) :
    calculate_weight_charge s =
      min (((if containsKg (normalizeWeight s) then parseTok tok * 1000 else parseTok tok)
          + 499) / 500 * 20) 200 := by
  simp only [calculate_weight_charge, h]

theorem parseTok_of_digits (l : List Char) (h : l.dropWhile Char.isDigit = []) :
    parseTok l = (digitsToNat (l.takeWhile Char.isDigit) : ℚ) := by
  simp only [parseTok, h]
  norm_num [digitsToNat]

theorem calculate_totals_fields (inv : Invoice) :
    (calculate_totals inv).base_charge = inv.base_charge
    ∧ (calculate_totals inv).weight_charge = inv.weight_charge
    ∧ (calculate_totals inv).tax_percentage = inv.tax_percentage
    ∧ (calculate_totals inv).generated_at = inv.generated_at
    ∧ (calculate_totals inv).pickup_request_id = inv.pickup_request_id
    ∧ (calculate_totals inv).invoice_number = inv.invoice_number
    ∧ (calculate_totals inv).tax_amount =
        (inv.base_charge + inv.weight_charge) * inv.tax_percentage / 100
    ∧ (calculate_totals inv).total_amount =
        inv.base_charge + inv.weight_charge
          + (inv.base_charge + inv.weight_charge) * inv.tax_percentage / 100 :=
  ⟨rfl, rfl, rfl, rfl, rfl, rfl, rfl, rfl⟩

theorem invoiceSave_fields (db : List Invoice) (today : String) (inv : Invoice) :
    (invoiceSave db today inv).base_charge = inv.base_charge
    ∧ (invoiceSave db today inv).weight_charge = inv.weight_charge
    ∧ (invoiceSave db today inv).tax_percentage = inv.tax_percentage
    ∧ (invoiceSave db today inv).generated_at = inv.generated_at
    ∧ (invoiceSave db today inv).pickup_request_id = inv.pickup_request_id
    ∧ (invoiceSave db today inv).tax_amount =
        (inv.base_charge + inv.weight_charge) * inv.tax_percentage / 100
    ∧ (invoiceSave db today inv).total_amount =
        inv.base_charge + inv.weight_charge
          + (inv.base_charge + inv.weight_charge) * inv.tax_percentage / 100 := by
  simp only [invoiceSave]
  split <;> exact ⟨rfl, rfl, rfl, rfl, rfl, rfl, rfl⟩

theorem invoiceSave_ct (db : List Invoice) (today : String) (inv : Invoice) :
    calculate_totals (invoiceSave db today inv) = invoiceSave db today inv := rfl

theorem invoiceSave_number_of_empty (db : List Invoice) (today : String)
    (inv : Invoice) (h : inv.invoice_number = "") :
    (invoiceSave db today inv).invoice_number =
      "INV-" ++ today ++ "-" ++
        pad3 ((db.filter (fun i => i.invoice_number.startsWith ("INV-" ++ today))).length + 1) := by
  simp only [invoiceSave]
  rw [if_pos h]
  rfl

theorem invoiceSave_of_ne (db : List Invoice) (today : String) (inv : Invoice)
    (h : ¬ inv.invoice_number = "") :
    invoiceSave db today inv = calculate_totals inv := by
  simp only [invoiceSave]
  rw [if_neg h]

theorem mk_number_ne_empty (today p : String) :
    ("INV-" ++ today ++ "-" ++ p) ≠ "" := by
  intro hcontra
  have h2 : ("INV-" ++ today ++ "-" ++ p).data = ("" : String).data :=
    congrArg String.data hcontra
  simp only [String.data_append] at h2
  simp at h2

theorem invoiceSave_number_ne (db : List Invoice) (today : String) (inv : Invoice)
    (h : inv.invoice_number = "") :
    (invoiceSave db today inv).invoice_number ≠ "" := by
  rw [invoiceSave_number_of_empty db today inv h]
  exact mk_number_ne_empty today _

theorem updateById_no_match (db : List Invoice) (inv : Invoice)
    (h : ∀ i ∈ db, i.pickup_request_id ≠ inv.pickup_request_id) :
    updateById db inv = db := by
  induction db with
  | nil => rfl
  | cons a l ih =>
    have ha : (a.pickup_request_id == inv.pickup_request_id) = false := by
      simp only [beq_eq_false_iff_ne, ne_eq]
      exact h a (by simp)
    simp only [updateById, List.map_cons, ha, Bool.false_eq_true, if_false]
    have hl := ih (fun i hi => h i (by simp [hi]))
    simp only [updateById] at hl
    rw [hl]

theorem writeback_identity (db : List Invoice) (inv : Invoice)
    (h : ∀ i ∈ db, i.pickup_request_id ≠ inv.pickup_request_id) :
    updateById (db ++ [inv]) inv = db ++ [inv] := by
  simp only [updateById, List.map_append]
  have h1 : updateById db inv = db := updateById_no_match db inv h
  simp only [updateById] at h1
  rw [h1]
  simp

theorem find_append_right (db : List Invoice) (inv : Invoice) (p : Invoice → Bool)
    (h : ∀ i ∈ db, p i = false) (hp : p inv = true) :
    (db ++ [inv]).find? p = some inv := by
  induction db with
  | nil => simp [List.find?, hp]
  | cons a l ih =>
    have ha := h a (by simp)
    rw [List.cons_append, List.find?_cons_of_neg _ (by simp [ha])]
    exact ih (fun i hi => h i (by simp [hi]))

theorem generate_invoice_of_none (db : List Invoice) (today : String)
    (now : Nat) (rid : Nat) (w : String)
    (h : ∀ i ∈ db, i.pickup_request_id ≠ rid) :
    generate_invoice db today now rid w =
      db ++ [invoiceSave db today
        { pickup_request_id := rid
          invoice_number := ""
          base_charge := 100
          weight_charge := calculate_weight_charge w
          tax_percentage := 18
          tax_amount := 0
          total_amount := 0
          generated_at := now }] := by
  have hfind : db.find? (fun i => i.pickup_request_id == rid) = none :=
    List.find?_eq_none.mpr (fun i hi => by
      simp only [beq_eq_false_iff_ne, Bool.not_eq_true, ne_eq]
      exact h i hi)
  simp only [generate_invoice, hfind]
  rw [invoiceSave_ct, invoiceSave_of_ne _ _ _ (invoiceSave_number_ne db today _ rfl),
    invoiceSave_ct]
  apply writeback_identity
  intro i hi
  rw [(invoiceSave_fields db today _).2.2.2.2.1]
  exact h i hi

theorem generate_invoice_of_found (db : List Invoice) (today : String) (now : Nat)
    (rid : Nat) (w : String) (inv1 : Invoice)
    (h : ∀ i ∈ db, i.pickup_request_id ≠ rid)
    (hpid : inv1.pickup_request_id = rid)
    (hnum : inv1.invoice_number ≠ "")
    (hct : calculate_totals inv1 = inv1) :
    generate_invoice (db ++ [inv1]) today now rid w = db ++ [inv1] := by
  have hfind2 : (db ++ [inv1]).find? (fun i => i.pickup_request_id == rid) = some inv1 :=
    find_append_right db inv1 _
      (fun i hi => by
        simp only [beq_eq_false_iff_ne, ne_eq]
        exact h i hi)
      (by simp [hpid])
  simp only [generate_invoice, hfind2]
  rw [hct, invoiceSave_of_ne _ _ _ hnum, hct]
  exact writeback_identity db inv1 (fun i hi => by rw [hpid]; exact h i hi)

/-! ### Claims -/

/-- Claim C1.  The claim states the charge is `min(ceil(grams/500)*20, 200)`
with integer ceiling division, so `ChargeCalculator("500g") = 20`.  The code
instead computes `(weight_value + 499) / 500` with Python float division
(despite its own `# Ceiling division` comment), so `"500g"` yields
`(999/500)*20 = 39.96`, not `20` — while the spec-side ceiling formula does
give `20` at 500 grams. -/
theorem C1_charge_of_500g :
    calculate_weight_charge "500g" = 999 / 25
    ∧ (999 / 25 : ℚ) ≠ 20
    ∧ spec_weight_charge 500 = 20 := by
  refine ⟨?_, by norm_num, ?_⟩
  · rw [calculate_weight_charge_of_some "500g" ['5', '0', '0'] (by decide)]
    have hk : containsKg (normalizeWeight "500g") = false := by decide
    have hp : parseTok ['5', '0', '0'] = 500 := by
      rw [parseTok_of_digits _ (by decide)]
      have hd : digitsToNat (List.takeWhile Char.isDigit ['5', '0', '0']) = 500 := by decide
      rw [hd]
      norm_num
    rw [hk]
    simp only [Bool.false_eq_true, if_false, hp]
    rw [min_eq_left (by norm_num)]
    norm_num
  · unfold spec_weight_charge
    rw [show ((500 : ℚ) / 500) = 1 by norm_num, Int.ceil_one]
    rw [min_eq_left (by norm_num)]
    norm_num

/-- Claim C2.  The claim states accept/reject/complete refuse transitions out
of the terminal states `rejected`/`completed` and leave the status unchanged.
The handlers perform no status check at all: on a `completed` request, accept
sets the status to `accepted` (and appends a history row), reject sets it to
`rejected`, and on a `rejected` request complete sets it to `completed`. -/
theorem C2_no_terminal_guard :
    (accept_request completedState "" 1 (some true)).1.pickup.status = "accepted"
    ∧ (accept_request completedState "" 1 (some true)).1.history.length
        = completedState.history.length + 1
    ∧ (reject_request completedState "bad" 1).1.pickup.status = "rejected"
    ∧ (complete_request
        { completedState with
          pickup := { completedState.pickup with status := "rejected" } } 1).1.pickup.status
        = "completed"
    ∧ completedState.pickup.status = "completed" :=
  ⟨rfl, rfl, rfl, rfl, rfl⟩

/-- Claim C3.  After any save, `tax_amount = (base_charge + weight_charge) *
tax_percentage / 100` and `total_amount = base_charge + weight_charge +
tax_amount`, with the inputs of the formula being exactly the stored
`base_charge`, `weight_charge`, `tax_percentage` (unchanged by the save). -/
theorem C3_totals_invariant (db : List Invoice) (today : String) (inv : Invoice) :
    (invoiceSave db today inv).tax_amount =
      ((invoiceSave db today inv).base_charge + (invoiceSave db today inv).weight_charge)
        * (invoiceSave db today inv).tax_percentage / 100
    ∧ (invoiceSave db today inv).total_amount =
      (invoiceSave db today inv).base_charge + (invoiceSave db today inv).weight_charge
        + (invoiceSave db today inv).tax_amount
    ∧ (invoiceSave db today inv).base_charge = inv.base_charge
    ∧ (invoiceSave db today inv).weight_charge = inv.weight_charge
    ∧ (invoiceSave db today inv).tax_percentage = inv.tax_percentage := by
  obtain ⟨hb, hw, hp, _, _, ht, htot⟩ := invoiceSave_fields db today inv
  refine ⟨?_, ?_, hb, hw, hp⟩
  · rw [ht, hb, hw, hp]
  · rw [htot, ht, hb, hw]

/-- Claim C4.  Starting from a table with no invoice for the request,
invoking invoice generation twice leaves exactly one Invoice row for that
request, and the second invocation is the identity on the table (totals are
recomputed to the same values, nothing is accumulated or duplicated). -/
theorem C4_generation_idempotent (db : List Invoice) (today : String)
    (t1 t2 : Nat) (rid : Nat) (w : String)
    (h : ∀ i ∈ db, i.pickup_request_id ≠ rid) :
    ((generate_invoice (generate_invoice db today t1 rid w) today t2 rid w).filter
        (fun i => i.pickup_request_id == rid)).length = 1
    ∧ generate_invoice (generate_invoice db today t1 rid w) today t2 rid w
        = generate_invoice db today t1 rid w := by
  have hgen1 := generate_invoice_of_none db today t1 rid w h
  have hpid : (invoiceSave db today
      { pickup_request_id := rid
        invoice_number := ""
        base_charge := 100
        weight_charge := calculate_weight_charge w
        tax_percentage := 18
        tax_amount := 0
        total_amount := 0
        generated_at := t1 }).pickup_request_id = rid :=
    (invoiceSave_fields db today _).2.2.2.2.1
  have hgen2 :
      generate_invoice (generate_invoice db today t1 rid w) today t2 rid w
        = generate_invoice db today t1 rid w := by
    rw [hgen1]
    exact generate_invoice_of_found db today t2 rid w _ h hpid
      (invoiceSave_number_ne db today _ rfl) (invoiceSave_ct db today _)
  refine ⟨?_, hgen2⟩
  rw [hgen2, hgen1]
  rw [List.filter_append]
  have hnil : db.filter (fun i => i.pickup_request_id == rid) = [] :=
    List.filter_eq_nil_iff.mpr (fun i hi => by
      simp only [beq_eq_false_iff_ne, Bool.not_eq_true, ne_eq]
      exact h i hi)
  rw [hnil]
  simp [List.filter, hpid]

/-- Claim C4 witness at a concrete input: empty table, request id 7. -/
theorem C4_witness :
    (∀ i ∈ ([] : List Invoice), i.pickup_request_id ≠ 7)
    ∧ ((generate_invoice (generate_invoice [] "20260223" 0 7 "x") "20260223" 1 7 "x").filter
        (fun i => i.pickup_request_id == 7)).length = 1 :=
  ⟨by simp, (C4_generation_idempotent [] "20260223" 0 1 7 "x" (by simp)).1⟩

/-- Claim C5.  Each transition handler appends exactly one history row whose
`old_status` is the status immediately prior to the call and whose
`new_status` is the target state, and writes the relevant timestamp:
`reviewed_at` for accept/reject, `completed_at` for complete. -/
theorem C5_history_and_timestamps (st : ReqState) (notes reason : String)
    (t : Nat) (emailCall : Option Bool) :
    ((accept_request st notes t emailCall).1.history
        = st.history ++ [⟨st.pickup.status, "accepted", notes⟩]
      ∧ (accept_request st notes t emailCall).1.pickup.reviewed_at = some t
      ∧ (accept_request st notes t emailCall).1.pickup.status = "accepted")
    ∧ ((reject_request st reason t).1.history
        = st.history ++ [⟨st.pickup.status, "rejected", reason⟩]
      ∧ (reject_request st reason t).1.pickup.reviewed_at = some t
      ∧ (reject_request st reason t).1.pickup.status = "rejected")
    ∧ ((complete_request st t).1.history
        = st.history ++ [⟨st.pickup.status, "completed", "Marked as completed"⟩]
      ∧ (complete_request st t).1.pickup.completed_at = some t
      ∧ (complete_request st t).1.pickup.status = "completed") :=
  ⟨⟨rfl, rfl, rfl⟩, ⟨rfl, rfl, rfl⟩, ⟨rfl, rfl, rfl⟩⟩

/-- Claim C6.  When the notification step fails during acceptance — the
`send_acceptance_email` call raises (`emailCall = none`, caught by the
handler) or returns `False` — the request still ends up `accepted` with its
history row recorded, and the staff member sees a soft `warning`, not an
`error`; moreover a failing invoice render inside `send_acceptance_email`
is caught there and merely routes to the fallback plain email. -/
theorem C6_email_failure_is_soft (st : ReqState) (notes : String) (t : Nat) :
    ((accept_request st notes t none).1.pickup.status = "accepted"
      ∧ (accept_request st notes t none).1.history
          = st.history ++ [⟨st.pickup.status, "accepted", notes⟩]
      ∧ (accept_request st notes t none).2 = MsgKind.warning)
    ∧ ((accept_request st notes t (some false)).1.pickup.status = "accepted"
      ∧ (accept_request st notes t (some false)).1.history
          = st.history ++ [⟨st.pickup.status, "accepted", notes⟩]
      ∧ (accept_request st notes t (some false)).2 = MsgKind.warning)
    ∧ (∀ env : EmailEnv, sendAcceptanceEmail { env with renderOk := false } = env.fallbackOk) :=
  ⟨⟨rfl, rfl, rfl⟩, ⟨rfl, rfl, rfl⟩, fun _ => rfl⟩

/-- Claim C7.  When no numeric token can be extracted from the weight string,
the charge calculator returns the fixed default 50 (the function is total:
in the source any parse failure is likewise caught and mapped to 50). -/
theorem C7_default_on_parse_failure (s : String)
    (h : extractNum (normalizeWeight s) = none) :
    calculate_weight_charge s = 50 :=
  calculate_weight_charge_of_none s h

/-- Claim C7 witness at the spec's concrete input. -/
theorem C7_witness :
    extractNum (normalizeWeight "not a number") = none
    ∧ calculate_weight_charge "not a number" = 50 :=
  ⟨by decide, C7_default_on_parse_failure "not a number" (by decide)⟩

/-- Claim C8.  Rejection stores the supplied reason verbatim in both the
request's `admin_notes` and the `notes` of the single history row it
creates. -/
theorem C8_reason_stored_verbatim (st : ReqState) (reason : String) (t : Nat) :
    (reject_request st reason t).1.pickup.admin_notes = some reason
    ∧ (reject_request st reason t).1.history
        = st.history ++ [⟨st.pickup.status, "rejected", reason⟩] :=
  ⟨rfl, rfl⟩

/-- Claim C9.  A save of an invoice without a number assigns
`INV-<today>-<seq>` where `seq` is the number of invoices already generated
that day (those whose number starts with `INV-<today>`) plus one, zero-padded
to three digits by `pad3`. -/
theorem C9_invoice_number_format (db : List Invoice) (today : String)
    (inv : Invoice) (h : inv.invoice_number = "") :
    (invoiceSave db today inv).invoice_number =
      "INV-" ++ today ++ "-" ++
        pad3 ((db.filter (fun i => i.invoice_number.startsWith ("INV-" ++ today))).length + 1) :=
  invoiceSave_number_of_empty db today inv h

/-- Claim C9 witness: first invoice of the day gets sequence 001. -/
theorem C9_witness :
    invNew.invoice_number = ""
    ∧ (invoiceSave [] "20260223" invNew).invoice_number = "INV-20260223-001" := by
  refine ⟨rfl, ?_⟩
  rw [C9_invoice_number_format [] "20260223" invNew rfl]
  rfl

/-- Claim C10.  Saving an invoice that already has a (non-empty) number keeps
the number and the creation timestamp unchanged, while the totals are
recomputed from the stored fields. -/
theorem C10_save_preserves_number (db : List Invoice) (today : String)
    (inv : Invoice) (h : ¬ inv.invoice_number = "") :
    (invoiceSave db today inv).invoice_number = inv.invoice_number
    ∧ (invoiceSave db today inv).generated_at = inv.generated_at
    ∧ (invoiceSave db today inv).tax_amount =
        (inv.base_charge + inv.weight_charge) * inv.tax_percentage / 100
    ∧ (invoiceSave db today inv).total_amount =
        inv.base_charge + inv.weight_charge
          + (inv.base_charge + inv.weight_charge) * inv.tax_percentage / 100 := by
  rw [invoiceSave_of_ne db today inv h]
  obtain ⟨_, _, _, hg, _, hn, ht, htot⟩ := calculate_totals_fields inv
  exact ⟨hn, hg, ht, htot⟩

/-- Claim C10 witness: a numbered invoice keeps its number across a save. -/
theorem C10_witness :
    ¬ invOld.invoice_number = ""
    ∧ (invoiceSave [] "20260223" invOld).invoice_number = invOld.invoice_number :=
  ⟨by decide, (C10_save_preserves_number [] "20260223" invOld (by decide)).1⟩

end VRL
